import Mathlib

/-!
Shallow embedding of the client-side document-analysis lifecycle of the
Insurance repository: upload validation (`Analysis.tsx` / `handleFileUpload`),
the polling queries (`useQuery` for analysis status, progress and findings),
findings filtering and pagination, the chat panel state machine
(`ChatPanel.tsx`), the API client's base-URL resolution and request paths
(`api.ts`, the api client embedded after `PDFViewer.tsx`), and the
module-level single-slot file store (`lib/state.ts`).

JS strings are modelled by `String`, JS numbers occurring in the claims by
`Nat`/`Int` (all relevant values are integers), nullable values by `Option`.
Wall-clock values (`Date.now()`, message timestamps) are passed in explicitly
as a `Nat` parameter where the source reads the clock.
-/

namespace Insurance

/-! ### JS string primitives

`leadsWith p l` decides whether the character list `p` is an initial segment
of `l`; `strIncludes s pat` models `s.includes(pat)` from JS, `jsTrim` models
`String.prototype.trim` (on the ASCII whitespace actually produced by the
inputs at hand), `beginsWith` models `startsWith`, `hostEndsWith` models
`endsWith`. -/

def leadsWith : List Char → List Char → Bool
  | [], _ => true
  | _ :: _, [] => false
  | p :: ps, c :: cs => p = c && leadsWith ps cs

def strIncludesAux (pat : List Char) : List Char → Bool
  | [] => leadsWith pat []
  | c :: cs => leadsWith pat (c :: cs) || strIncludesAux pat cs

/-- Model of JS `s.includes(pat)`. -/
def strIncludes (s pat : String) : Bool :=
  strIncludesAux pat.data s.data

def isJsWhitespace (c : Char) : Bool :=
  c = ' ' || c = '\t' || c = '\n' || c = '\r'

/-- Model of JS `s.trim()`. -/
def jsTrim (s : String) : String :=
  ⟨((s.data.dropWhile isJsWhitespace).reverse.dropWhile isJsWhitespace).reverse⟩

/-- Model of JS `s.startsWith(pat)`. -/
def beginsWith (s pat : String) : Bool :=
  leadsWith pat.data s.data

/-- Model of JS `s.endsWith(pat)`. -/
def hostEndsWith (s pat : String) : Bool :=
  leadsWith pat.data.reverse s.data.reverse

/-- Model of JS truthiness of a nullable string (`!!x` is false for both
`null`/`undefined` and the empty string). -/
def truthyStr : Option String → Bool
  | none => false
  | some s => !(s = "")

/-! ### Data model (`lib/api.ts` interfaces) -/

/-- A selected browser `File`: the fields the lifecycle reads
(`name`, `type`, `size`). -/
structure FileV where
  name : String
  type : String
  size : Nat
deriving DecidableEq, Repr

/-- `Finding` from `lib/api.ts`; `confidence_score` (a JS number in `[0,1]`)
is modelled as a rational. -/
structure Finding where
  id : Int
  category : String
  severity : String
  summary : String
  recommendation : Option String
  page_num : Int
  confidence_score : Rat
deriving DecidableEq, Repr

/-! ### Module-level file store (`lib/state.ts`)

The source keeps `let currentFile: File | null = null` at module level with
`setFile`/`getFile`/`clearFile` closing over it; the mutable slot is made
explicit as a value of type `Option FileV` threaded through the operations. -/

/-- Initial value of the module-level `currentFile` slot (`null`). -/
def fileStateInit : Option FileV := none

/-- `fileState.setFile(file)`: overwrite the slot. -/
def setFile (file : FileV) (_ : Option FileV) : Option FileV := some file

/-- `fileState.getFile()`: read the slot. -/
def getFile (s : Option FileV) : Option FileV := s

/-- `fileState.clearFile()`: reset the slot to `null`. -/
def clearFile (_ : Option FileV) : Option FileV := none

/-! ### Upload validation (`Analysis.tsx`, `handleFileUpload`)

The handler first checks `file.type.includes('pdf')`, then
`file.size > 10 * 1024 * 1024`; on a violation it shows a destructive toast
(whose title names the violated constraint) and returns without invoking the
upload mutation; otherwise it invokes `uploadMutation.mutate(file)`, whose
`mutationFn` performs exactly one `apiService.uploadDocument` call. -/

inductive UploadOutcome where
  /-- Validation failed; the string is the toast title naming the violated
  constraint. -/
  | validationError (title : String)
  /-- Validation passed and the upload mutation was invoked. -/
  | uploadStarted
deriving DecidableEq, Repr

/-- `handleFileUpload` restricted to its validation/submission behaviour:
returns the outcome together with the number of upload network requests
issued. -/
def handleFileUpload (file : FileV) : UploadOutcome × Nat :=
  if !(strIncludes file.type "pdf") then
    (.validationError "Invalid file type", 0)
  else if file.size > 10 * 1024 * 1024 then
    (.validationError "File too large", 0)
  else
    (.uploadStarted, 1)

/-! ### Polling queries (`Analysis.tsx`)

The status query is
`useQuery { enabled: !!analysisState.documentId, refetchInterval: 2000 }`;
the progress query is
`useQuery { enabled: !!analysisState.documentId && analysisStatus?.status !== 'completed', refetchInterval: 2000 }`.
`observed` below is `analysisStatus?.status`: `none` while no status response
has arrived. -/

/-- Whether the analysis-status query runs (its `enabled` option). -/
def statusQueryEnabled (documentId : Option String) : Bool :=
  truthyStr documentId

/-- The status query's `refetchInterval` (ms) — a constant, independent of the
observed status. -/
def statusRefetchInterval : Nat := 2000

/-- JS `analysisStatus?.status !== 'completed'` (`undefined !== 'completed'`
is `true`). -/
def statusNeqCompleted : Option String → Bool
  | none => true
  | some s => !(s = "completed")

/-- Whether the progress query runs (its `enabled` option). -/
def progressQueryEnabled (documentId : Option String) (observed : Option String) : Bool :=
  truthyStr documentId && statusNeqCompleted observed

/-- Poll requests issued at one refetch tick, given the currently observed
analysis status. -/
def tickRequests (documentId : Option String) (observed : Option String) : List String :=
  (if statusQueryEnabled documentId then ["status"] else []) ++
  (if progressQueryEnabled documentId observed then ["progress"] else [])

/-- Run the poller over a sequence of status responses: each tick issues its
requests based on the last observed status, then observes the next response.
Returns the per-tick request lists. -/
def pollTrace (documentId : Option String) : Option String → List String → List (List String)
  | _, [] => []
  | observed, r :: rs => tickRequests documentId observed :: pollTrace documentId (some r) rs

/-! ### Findings query (`Analysis.tsx`)

`useQuery { enabled: !!analysisState.documentId && analysisStatus?.status === 'completed' }`,
default `data: findings = []`. The success effect adds a "Findings Retrieved"
process step only when `findings.length > 0`; the error effect adds a
"Findings Error" step only when `findingsError` is set. -/

/-- Whether the findings query runs (its `enabled` option). -/
def findingsQueryEnabled (documentId : Option String) (observed : Option String) : Bool :=
  truthyStr documentId && observed == some "completed"

/-- Titles of the process steps the findings effects add, given the query's
result (`.error` carries the error message). -/
def findingsEffectSteps (result : Except String (List Finding)) : List String :=
  match result with
  | .ok findings => if findings.length > 0 then ["Findings Retrieved"] else []
  | .error _ => ["Findings Error"]

/-! ### Filtering and pagination (`Analysis.tsx`) -/

/-- `itemsPerPage` from `useState(10)`. -/
def itemsPerPage : Nat := 10

/-- `filteredFindings`: the `'all'` sentinel disables the category filter. -/
def filteredFindings (findings : List Finding) (selectedCategory : String) : List Finding :=
  if selectedCategory = "all" then findings
  else findings.filter (fun f => f.category = selectedCategory)

/-- `totalPages = Math.ceil(filteredFindings.length / itemsPerPage)`. -/
def totalPages (filtered : List Finding) : Nat :=
  (filtered.length + (itemsPerPage - 1)) / itemsPerPage

/-- `paginatedFindings = filteredFindings.slice((currentPage-1)*itemsPerPage,
currentPage*itemsPerPage)`; `currentPage` is 1-based in the source. -/
def paginatedFindings (filtered : List Finding) (currentPage : Nat) : List Finding :=
  (filtered.drop ((currentPage - 1) * itemsPerPage)).take itemsPerPage

/-! ### Status → local phase mapping (`Analysis.tsx` effects)

`LocalState` holds the pieces of component state the two effects write:
`isAnalyzing` (from `analysisState`), `analysisProgress`, and the status of
the `'analysis'` process step. -/

inductive StepStatus where
  | pending
  | inProgress
  | completed
  | error
deriving DecidableEq, Repr

structure LocalState where
  isAnalyzing : Bool
  analysisProgress : Nat
  analysisStep : StepStatus
deriving DecidableEq, Repr

/-- Effect on `analysisStatus` updates: exact matches on `'completed'` and
`'failed'`; any other value leaves the state untouched. -/
def applyAnalysisStatus (status : String) (st : LocalState) : LocalState :=
  if status = "completed" then
    { st with analysisProgress := 100, analysisStep := .completed, isAnalyzing := false }
  else if status = "failed" then
    { st with analysisStep := .error, isAnalyzing := false }
  else st

/-- Effect on `progressData` updates: `setAnalysisProgress(progress)`
unconditionally, then exact matches on the four enum values; an unrecognized
status falls through all branches. -/
def applyProgressData (status : String) (progress : Nat) (st : LocalState) : LocalState :=
  let st := { st with analysisProgress := progress }
  if status = "analyzing" then { st with analysisStep := .inProgress }
  else if status = "pending" then { st with analysisStep := .inProgress }
  else if status = "completed" then { st with analysisStep := .completed, analysisProgress := 100 }
  else if status = "failed" then { st with analysisStep := .error }
  else st

/-! ### API client base URL and request URLs

From the api client embedded after `PDFViewer.tsx`: the fallback default is
the HF Space URL when `window.location.hostname` ends with `'vercel.app'`,
else the local dev URL; `API_BASE_URL = import.meta.env.VITE_API_URL ||
inferredDefaultBaseUrl` (JS `||`: the empty string also falls through).
`pdfUrl` is the document-PDF URL built at `PDFViewer.tsx` line 23. -/

def inferredDefaultBaseUrl (hostname : String) : String :=
  if hostEndsWith hostname "vercel.app" then
    "https://raykarr-insurance-document-analyzer-api.hf.space"
  else
    "http://localhost:7860"

def API_BASE_URL (viteApiUrl : Option String) (hostname : String) : String :=
  match viteApiUrl with
  | some u => if u = "" then inferredDefaultBaseUrl hostname else u
  | none => inferredDefaultBaseUrl hostname

def ingestUrl (base : String) : String := base ++ "/ingest"

def analysisUrl (base documentId : String) : String := base ++ "/analysis/" ++ documentId

def findingsUrl (base documentId : String) : String := base ++ "/findings/" ++ documentId

def findingsByCategoryUrl (base documentId category : String) : String :=
  base ++ "/findings/" ++ documentId ++ "/category/" ++ category

def chatUrl (base : String) (findingId : Int) : String :=
  base ++ "/findings/" ++ toString findingId ++ "/chat"

def healthUrl (base : String) : String := base ++ "/health"

def progressUrl (base documentId : String) : String := base ++ "/progress/" ++ documentId

/-- All URLs the api client can issue requests to, for one document, finding
and category. -/
def clientRequestUrls (base documentId category : String) (findingId : Int) : List String :=
  [ingestUrl base, analysisUrl base documentId, findingsUrl base documentId,
   findingsByCategoryUrl base documentId category, chatUrl base findingId,
   healthUrl base, progressUrl base documentId]

/-- `PDFViewer.tsx` line 23: the PDF fetch URL, hard-coded to
`http://localhost:7860` independently of `API_BASE_URL`. -/
def pdfUrl (documentId : String) : String :=
  "http://localhost:7860/documents/" ++ documentId ++ "/pdf#view=FitH&toolbar=1"

/-! ### Chat panel (`ChatPanel.tsx`)

State: `inputValue`, `messages`, `currentFindingId`, `isLoading`. Message ids
come from the wall clock (`Date.now()`), passed in as `now`; `timestamp`
fields are omitted (wall-clock display only, read by no claim). -/

structure ChatMessage where
  id : String
  /-- `'user' | 'bot'` -/
  type : String
  content : String
deriving DecidableEq, Repr

structure ChatState where
  inputValue : String
  messages : List ChatMessage
  currentFindingId : Option Int
  isLoading : Bool
deriving DecidableEq, Repr

/-- The chat panel's initial state (`useState` initializers). -/
def chatInit : ChatState :=
  { inputValue := "", messages := [], currentFindingId := none, isLoading := false }

/-- The context message appended when a new finding is selected. -/
def contextMessage (f : Finding) : ChatMessage :=
  { id := "context-" ++ toString f.id
    type := "bot"
    content := "Now discussing: " ++ f.category ++ " on page " ++ toString f.page_num
      ++ ". " ++ f.summary }

/-- The `useEffect` run when the `finding` prop changes: if
`finding.id !== currentFindingId`, record the new id and append a context
message to the existing transcript. -/
def selectFinding (f : Finding) (st : ChatState) : ChatState :=
  if some f.id = st.currentFindingId then st
  else
    { st with
        currentFindingId := some f.id
        messages := st.messages ++ [contextMessage f] }

/-- Typing into the input field (`setInputValue` via `onChange`). -/
def setInput (q : String) (st : ChatState) : ChatState :=
  { st with inputValue := q }

/-- First half of `handleSendMessage`, up to the `await`: the guard
`if (!inputValue.trim() || isLoading) return`, the optimistic user-message
append, clearing the input and setting the busy flag. Returns the new state
and the chat request issued, if any, as `(findingId, question)`. -/
def sendStart (f : Finding) (now : Nat) (st : ChatState) : ChatState × Option (Int × String) :=
  if jsTrim st.inputValue = "" || st.isLoading then (st, none)
  else
    ({ st with
        messages := st.messages ++
          [{ id := toString now, type := "user", content := st.inputValue }]
        inputValue := ""
        isLoading := true },
     some (f.id, st.inputValue))

/-- What the completion of `handleSendMessage` produces besides the new
state: an optional destructive toast `(title, description)` and the list of
chat requests it issues (none — there is no retry). -/
structure SendCompletion where
  state : ChatState
  toast : Option (String × String)
  requests : List (Int × String)
deriving DecidableEq, Repr

/-- Fallback assistant message content appended on a failed send. -/
def chatErrorFallback : String :=
  "Sorry, I encountered an error while processing your question. Please try again."

/-- Second half of `handleSendMessage`: on success append the assistant
reply; on failure append the fallback assistant message and surface a toast
whose description is `error.response?.data?.detail || "Failed to send
message"`; either way clear the busy flag. -/
def sendComplete (result : Except (Option String) String) (now : Nat) (st : ChatState) :
    SendCompletion :=
  match result with
  | .ok answer =>
      { state :=
          { st with
              messages := st.messages ++
                [{ id := toString (now + 1), type := "bot", content := answer }]
              isLoading := false }
        toast := none
        requests := [] }
  | .error detail =>
      { state :=
          { st with
              messages := st.messages ++
                [{ id := toString (now + 1), type := "bot", content := chatErrorFallback }]
              isLoading := false }
        toast := some ("Chat Error", detail.getD "Failed to send message")
        requests := [] }

/-! ## Helper lemmas -/

lemma leadsWith_refl (l : List Char) : leadsWith l l = true := by
  induction l with
  | nil => rfl
  | cons c cs ih => simp [leadsWith, ih]

lemma leadsWith_append_of (p l m : List Char) (h : leadsWith p l = true) :
    leadsWith p (l ++ m) = true := by
  induction p generalizing l with
  | nil => rfl
  | cons c cs ih =>
    cases l with
    | nil => simp [leadsWith] at h
    | cons d ds =>
      simp only [leadsWith, Bool.and_eq_true, decide_eq_true_eq] at h
      simp only [List.cons_append, leadsWith, Bool.and_eq_true, decide_eq_true_eq]
      exact ⟨h.1, ih ds h.2⟩

lemma leadsWith_self_append (l m : List Char) : leadsWith l (l ++ m) = true :=
  leadsWith_append_of l l m (leadsWith_refl l)

lemma beginsWith_self_append (s t : String) : beginsWith (s ++ t) s = true := by
  cases s; cases t
  exact leadsWith_self_append _ _

lemma beginsWith_of_beginsWith_left (s t base : String)
    (h : beginsWith s base = true) : beginsWith (s ++ t) base = true := by
  cases s; cases t; cases base
  exact leadsWith_append_of _ _ _ h

/-! ## Sample values for witnesses -/

def sampleFinding : Finding :=
  ⟨1, "EXCLUSION", "HIGH", "Pre-existing conditions are excluded.", none, 3, 92 / 100⟩

def sampleFinding2 : Finding :=
  ⟨2, "DEDUCTIBLE", "MEDIUM", "A high deductible applies.", none, 5, 8 / 10⟩

def sampleFindingsList : List Finding :=
  [sampleFinding, sampleFinding2,
   ⟨3, "COPAYMENT", "LOW", "A copayment applies to visits.", none, 7, 1 / 2⟩]

def sampleChatReady : ChatState :=
  { inputValue := "What does this mean?", messages := [],
    currentFindingId := some 1, isLoading := false }

def sampleLocalState : LocalState :=
  { isAnalyzing := true, analysisProgress := 40, analysisStep := .inProgress }

/-! ## Claims -/

/-- C10: the module-level file state is a correct single-slot store:
`getFile` after `setFile f` returns `f` whatever was stored before, `getFile`
after `clearFile` returns `null`, and the initial value is `null`. -/
theorem fileState_single_slot (f : FileV) (s s' : Option FileV) :
    getFile (setFile f s) = some f ∧
    getFile (clearFile s') = none ∧
    getFile fileStateInit = none :=
  ⟨rfl, rfl, rfl⟩

/-- C1: a file whose content type fails the handler's PDF test
(`file.type.includes('pdf')`, which holds of the PDF content types) is
rejected with a validation toast naming the type constraint and zero upload
requests; a PDF-typed file larger than 10 MB is rejected with a toast naming
the size constraint and zero upload requests; a file satisfying both
preconditions triggers exactly one upload request. -/
theorem upload_validation_spec (f : FileV) :
    (strIncludes f.type "pdf" = false →
      handleFileUpload f = (.validationError "Invalid file type", 0)) ∧
    (strIncludes f.type "pdf" = true → f.size > 10 * 1024 * 1024 →
      handleFileUpload f = (.validationError "File too large", 0)) ∧
    (strIncludes f.type "pdf" = true → f.size ≤ 10 * 1024 * 1024 →
      handleFileUpload f = (.uploadStarted, 1)) := by
  refine ⟨fun h => ?_, fun h1 h2 => ?_, fun h1 h2 => ?_⟩
  · simp [handleFileUpload, h]
  · simp [handleFileUpload, h1, h2]
  · have hn : ¬ (10 * 1024 * 1024 < f.size) := by omega
    simp [handleFileUpload, h1, hn]

/-- Witness for C1 at three concrete files. -/
theorem upload_validation_spec_witness :
    handleFileUpload ⟨"a.txt", "text/plain", 100⟩ =
      (.validationError "Invalid file type", 0) ∧
    handleFileUpload ⟨"big.pdf", "application/pdf", 10485761⟩ =
      (.validationError "File too large", 0) ∧
    handleFileUpload ⟨"ok.pdf", "application/pdf", 2048⟩ = (.uploadStarted, 1) :=
  ⟨(upload_validation_spec _).1 (by decide),
   (upload_validation_spec _).2.1 (by decide) (by decide),
   (upload_validation_spec _).2.2 (by decide) (by decide)⟩

/-- C2 counterexample: once the terminal status `failed` is observed, the
poller does not cease — the next tick still issues both the status and the
progress request (the status query's refetch interval is an unconditional
constant, and the progress query is only disabled on `completed`). Shown on
the response sequence `pending, failed, failed`: the tick after `failed` is
first observed still polls. -/
theorem poller_terminal_counterexample :
    tickRequests (some "doc1") (some "failed") ≠ [] ∧
    tickRequests (some "doc1") (some "failed") = ["status", "progress"] ∧
    pollTrace (some "doc1") none ["pending", "failed", "failed"] =
      [["status", "progress"], ["status", "progress"], ["status", "progress"]] ∧
    statusRefetchInterval = 2000 := by decide

/-- C2 (amended): per tick, the status poll fires whenever a truthy document
id is present, regardless of the observed status — it does not cease on a
terminal status; the progress poll fires exactly when additionally the
observed status differs from `completed`, so it ceases once `completed` is
observed but keeps polling on `failed`. -/
theorem poller_tick_spec (d : Option String) (s : Option String) :
    ("status" ∈ tickRequests d s ↔ truthyStr d = true) ∧
    ("progress" ∈ tickRequests d s ↔
      truthyStr d = true ∧ statusNeqCompleted s = true) ∧
    tickRequests d (some "completed") =
      (if truthyStr d then ["status"] else []) := by
  refine ⟨?_, ?_, ?_⟩ <;>
    simp [tickRequests, statusQueryEnabled, progressQueryEnabled,
      statusNeqCompleted]

/-- Witness for C2's amended theorem at a concrete tick. -/
theorem poller_tick_spec_witness :
    "progress" ∈ tickRequests (some "doc1") (some "failed") ↔
      truthyStr (some "doc1") = true ∧
        statusNeqCompleted (some "failed") = true :=
  (poller_tick_spec (some "doc1") (some "failed")).2.1

/-- C3: the findings query is enabled exactly when a truthy document id is
present and the observed status is `completed`; with no document id or a
status other than `completed` it is disabled (no findings request); a
successful fetch of an empty findings list produces no process step at all —
in particular no error step. -/
theorem findings_gate_spec (d : Option String) (s : Option String) :
    (findingsQueryEnabled d s = true ↔
      truthyStr d = true ∧ s = some "completed") ∧
    (d = none ∨ s ≠ some "completed" → findingsQueryEnabled d s = false) ∧
    findingsEffectSteps (.ok []) = [] := by
  refine ⟨?_, fun h => ?_, rfl⟩
  · simp [findingsQueryEnabled]
  · rcases h with h | h <;>
      simp [findingsQueryEnabled, h, truthyStr]

/-- Witness for C3 at a concrete non-completed state. -/
theorem findings_gate_spec_witness :
    findingsQueryEnabled (some "abc123") (some "analyzing") = false :=
  (findings_gate_spec (some "abc123") (some "analyzing")).2.1 (Or.inr (by decide))

/-- C4: pagination is a pure view over the already-loaded filtered list with
page size 10: the page count is `ceil(N/10)`, page `i` (0-based; the
source's `currentPage` is `i + 1`) is the slice `[i*10, (i+1)*10)` clipped to
bounds, every non-final in-range page has 10 items, the final page has
`N mod 10` items (or 10 when `10 ∣ N`), and any page index at or beyond the
page count yields the empty list. -/
theorem pagination_spec (findings : List Finding) (cat : String) (i : Nat) :
    totalPages (filteredFindings findings cat) =
      (filteredFindings findings cat).length / 10 +
        (if (filteredFindings findings cat).length % 10 = 0 then 0 else 1) ∧
    paginatedFindings (filteredFindings findings cat) (i + 1) =
      ((filteredFindings findings cat).drop (i * 10)).take 10 ∧
    (i + 1 < totalPages (filteredFindings findings cat) →
      (paginatedFindings (filteredFindings findings cat) (i + 1)).length = 10) ∧
    (0 < (filteredFindings findings cat).length →
      i + 1 = totalPages (filteredFindings findings cat) →
      (paginatedFindings (filteredFindings findings cat) (i + 1)).length =
        if (filteredFindings findings cat).length % 10 = 0 then 10
        else (filteredFindings findings cat).length % 10) ∧
    (totalPages (filteredFindings findings cat) ≤ i →
      paginatedFindings (filteredFindings findings cat) (i + 1) = []) := by
  set l := filteredFindings findings cat with hl
  have hpage : ∀ j : Nat,
      (paginatedFindings l (j + 1)).length = min 10 (l.length - j * 10) := by
    intro j
    simp [paginatedFindings, itemsPerPage]
  have htot : totalPages l = (l.length + 9) / 10 := rfl
  refine ⟨?_, ?_, fun h => ?_, fun h0 h => ?_, fun h => ?_⟩
  · rw [htot]
    by_cases hmod : l.length % 10 = 0 <;> simp [hmod] <;> omega
  · simp [paginatedFindings, itemsPerPage]
  · have := hpage i
    rw [htot] at h
    omega
  · have := hpage i
    rw [htot] at h
    by_cases hmod : l.length % 10 = 0 <;> simp [hmod] <;> omega
  · have hlen : (paginatedFindings l (i + 1)).length = 0 := by
      have := hpage i
      rw [htot] at h
      omega
    exact List.eq_nil_of_length_eq_zero hlen

/-- Witness for C4: three findings, unfiltered, first (and only) page. -/
theorem pagination_spec_witness :
    (paginatedFindings (filteredFindings sampleFindingsList "all") (0 + 1)).length =
      (if (filteredFindings sampleFindingsList "all").length % 10 = 0 then 10
       else (filteredFindings sampleFindingsList "all").length % 10) :=
  (pagination_spec sampleFindingsList "all" 0).2.2.2.1 (by decide) (by decide)

/-- C5: selecting finding `A`, then a distinct finding `B`, then sending a
question appends `B`'s context message to the same running transcript without
clearing `A`'s (both remain, in order), and the chat request is scoped to
`B`'s finding id. -/
theorem chat_context_accumulation (A B : Finding) (q : String) (now : Nat)
    (hAB : A.id ≠ B.id) (hq : jsTrim q ≠ "") :
    sendStart B now (setInput q (selectFinding B (selectFinding A chatInit))) =
      ({ inputValue := ""
         messages := [contextMessage A, contextMessage B,
           { id := toString now, type := "user", content := q }]
         currentFindingId := some B.id
         isLoading := true },
       some (B.id, q)) := by
  have h1 : selectFinding A chatInit =
      { inputValue := "", messages := [contextMessage A],
        currentFindingId := some A.id, isLoading := false } := by
    simp [selectFinding, chatInit]
  have h2 : selectFinding B (selectFinding A chatInit) =
      { inputValue := "", messages := [contextMessage A, contextMessage B],
        currentFindingId := some B.id, isLoading := false } := by
    rw [h1]
    simp [selectFinding, Ne.symm hAB]
  rw [h2]
  simp [setInput, sendStart, hq]

/-- Witness for C5 at two concrete distinct findings. -/
theorem chat_context_accumulation_witness :
    sendStart sampleFinding2 7
        (setInput "What does this mean?"
          (selectFinding sampleFinding2 (selectFinding sampleFinding chatInit))) =
      ({ inputValue := ""
         messages := [contextMessage sampleFinding, contextMessage sampleFinding2,
           { id := toString 7, type := "user", content := "What does this mean?" }]
         currentFindingId := some sampleFinding2.id
         isLoading := true },
       some (sampleFinding2.id, "What does this mean?")) :=
  chat_context_accumulation sampleFinding sampleFinding2 "What does this mean?" 7
    (by decide) (by decide)

/-- C6: while a send is in flight (`isLoading = true`), invoking send again
is a no-op: the state — transcript and input included — is returned unchanged
and no request is issued. -/
theorem send_busy_noop (f : Finding) (now : Nat) (st : ChatState)
    (h : st.isLoading = true) :
    sendStart f now st = (st, none) := by
  simp [sendStart, h]

/-- Witness for C6 at a concrete busy state. -/
theorem send_busy_noop_witness :
    sendStart sampleFinding 9
        { inputValue := "hello", messages := [], currentFindingId := some 1,
          isLoading := true } =
      ({ inputValue := "hello", messages := [], currentFindingId := some 1,
          isLoading := true }, none) :=
  send_busy_noop sampleFinding 9
    { inputValue := "hello", messages := [], currentFindingId := some 1,
      isLoading := true } rfl

/-- C7: a send appends the user message before any response and issues the
request scoped to the bound finding id; on success the assistant reply is
appended; on failure the fallback assistant message is appended, a toast is
surfaced, and the completion issues no further request (no automatic
retry). -/
theorem send_lifecycle (f : Finding) (now : Nat) (st : ChatState)
    (hq : jsTrim st.inputValue ≠ "") (hbusy : st.isLoading = false) :
    (sendStart f now st).1.messages =
      st.messages ++
        [{ id := toString now, type := "user", content := st.inputValue }] ∧
    (sendStart f now st).2 = some (f.id, st.inputValue) ∧
    (∀ answer,
      (sendComplete (.ok answer) now (sendStart f now st).1).state.messages =
        (sendStart f now st).1.messages ++
          [{ id := toString (now + 1), type := "bot", content := answer }] ∧
      (sendComplete (.ok answer) now (sendStart f now st).1).requests = []) ∧
    (∀ detail,
      (sendComplete (.error detail) now (sendStart f now st).1).state.messages =
        (sendStart f now st).1.messages ++
          [{ id := toString (now + 1), type := "bot",
             content := chatErrorFallback }] ∧
      (sendComplete (.error detail) now (sendStart f now st).1).toast =
        some ("Chat Error", detail.getD "Failed to send message") ∧
      (sendComplete (.error detail) now (sendStart f now st).1).requests = []) := by
  refine ⟨?_, ?_, fun answer => ⟨rfl, rfl⟩, fun detail => ⟨rfl, rfl, rfl⟩⟩ <;>
    simp [sendStart, hq, hbusy]

/-- Witness for C7 at a concrete ready-to-send state. -/
theorem send_lifecycle_witness :
    (sendStart sampleFinding 7 sampleChatReady).2 =
      some (sampleFinding.id, sampleChatReady.inputValue) :=
  (send_lifecycle sampleFinding 7 sampleChatReady (by decide) rfl).2.1

/-- C8: the status-to-phase mapping is by exact string equality over
`pending`, `analyzing`, `completed`, `failed`; any status outside the enum
leaves the status effect a no-op and leaves the progress effect's step and
the analyzing flag unchanged — in particular the local state enters neither a
completed nor an error phase and the analyzing flag remains set. -/
theorem status_mapping_spec (s : String) (p : Nat) (st : LocalState) :
    (applyAnalysisStatus "completed" st).analysisStep = .completed ∧
    (applyAnalysisStatus "failed" st).analysisStep = .error ∧
    (applyProgressData "analyzing" p st).analysisStep = .inProgress ∧
    (applyProgressData "pending" p st).analysisStep = .inProgress ∧
    (applyProgressData "completed" p st).analysisStep = .completed ∧
    (applyProgressData "failed" p st).analysisStep = .error ∧
    (s ≠ "completed" → s ≠ "failed" → applyAnalysisStatus s st = st) ∧
    (s ≠ "pending" → s ≠ "analyzing" → s ≠ "completed" → s ≠ "failed" →
      (applyProgressData s p st).analysisStep = st.analysisStep ∧
      (applyProgressData s p st).isAnalyzing = st.isAnalyzing) := by
  refine ⟨?_, ?_, ?_, ?_, ?_, ?_, fun h1 h2 => ?_, fun h1 h2 h3 h4 => ?_⟩
  · simp [applyAnalysisStatus]
  · simp [applyAnalysisStatus]
  · simp [applyProgressData]
  · simp [applyProgressData]
  · simp [applyProgressData]
  · simp [applyProgressData]
  · simp [applyAnalysisStatus, h1, h2]
  · simp [applyProgressData, h1, h2, h3, h4]

/-- Witness for C8 at a concrete unrecognized status. -/
theorem status_mapping_spec_witness :
    (applyProgressData "unknown_status" 55 sampleLocalState).analysisStep =
      sampleLocalState.analysisStep ∧
    (applyProgressData "unknown_status" 55 sampleLocalState).isAnalyzing =
      sampleLocalState.isAnalyzing :=
  (status_mapping_spec "unknown_status" 55 sampleLocalState).2.2.2.2.2.2.2
    (by decide) (by decide) (by decide) (by decide)

/-- C9 counterexample: with no `VITE_API_URL` and the app served from a
`vercel.app` host, the single base-URL setting resolves to the HF Space, yet
the PDF viewer's document request goes to a hard-coded
`http://localhost:7860` URL — a request to an endpoint not resolved from
that setting. -/
theorem pdf_url_counterexample :
    API_BASE_URL none "myapp.vercel.app" =
      "https://raykarr-insurance-document-analyzer-api.hf.space" ∧
    beginsWith (pdfUrl "abc123") (API_BASE_URL none "myapp.vercel.app") = false := by
  decide

/-- C9 (amended): every request issued through the api client targets a URL
extending the single configured base-URL setting, but the PDF viewer's
document request is hard-coded to the `http://localhost:7860` endpoint
independently of that setting. -/
theorem base_url_single_setting (viteApiUrl : Option String)
    (hostname documentId category : String) (findingId : Int) :
    (∀ u ∈ clientRequestUrls (API_BASE_URL viteApiUrl hostname)
        documentId category findingId,
      beginsWith u (API_BASE_URL viteApiUrl hostname) = true) ∧
    beginsWith (pdfUrl documentId) "http://localhost:7860" = true := by
  constructor
  · intro u hu
    simp [clientRequestUrls] at hu
    rcases hu with rfl | rfl | rfl | rfl | rfl | rfl | rfl
    · exact beginsWith_self_append _ _
    · exact beginsWith_of_beginsWith_left _ _ _ (beginsWith_self_append _ _)
    · exact beginsWith_of_beginsWith_left _ _ _ (beginsWith_self_append _ _)
    · exact beginsWith_of_beginsWith_left _ _ _
        (beginsWith_of_beginsWith_left _ _ _
          (beginsWith_of_beginsWith_left _ _ _ (beginsWith_self_append _ _)))
    · exact beginsWith_of_beginsWith_left _ _ _
        (beginsWith_of_beginsWith_left _ _ _ (beginsWith_self_append _ _))
    · exact beginsWith_self_append _ _
    · exact beginsWith_of_beginsWith_left _ _ _ (beginsWith_self_append _ _)
  · exact beginsWith_of_beginsWith_left _ _ _
      (beginsWith_of_beginsWith_left _ _ _ (by decide))

/-- Witness for C9's amended theorem at a concrete configuration. -/
theorem base_url_single_setting_witness :
    beginsWith (ingestUrl (API_BASE_URL none "myapp.vercel.app"))
      (API_BASE_URL none "myapp.vercel.app") = true ∧
    beginsWith (pdfUrl "abc123") "http://localhost:7860" = true :=
  ⟨(base_url_single_setting none "myapp.vercel.app" "abc123" "EXCLUSION" 1).1 _
      (by simp [clientRequestUrls]),
   (base_url_single_setting none "myapp.vercel.app" "abc123" "EXCLUSION" 1).2⟩

end Insurance
